import Mathlib

/-! Verification of the mini_rack server_helpers core against its design
specification.  The development shallowly embeds three components:

* the line follower `follow_file` (src/server_helpers/auth_log_monitor.py,
  lines 41-77; an identical copy lives in simple_alerts.py, lines 37-69,
  differing only in `line.strip()` versus `line.rstrip("\n")`);
* the remote offset collector (src/server_helpers/collector.py:
  `remote_stat_size`, `sftp_read_range`, and the per-source body of `main`);
* the alert engine (src/server_helpers/simple_alerts.py, `main` loop).

Machine-level details that the claims do not touch (text codecs, JSON
serialisation syntax, wall-clock timestamps on status records) are abstracted;
the transport channel is modelled as delivering the requested byte range
verbatim.  File contents are `List Char`, one entry per byte. -/

namespace MiniRack

/-- Byte content of a file, one entry per byte. -/
abbrev Bytes := List Char

/-- Update an association list at a key (Python `d[k] = v` on a dict). -/
def setAssoc {α β : Type} [DecidableEq α] (m : List (α × β)) (k : α) (v : β) :
    List (α × β) :=
  match m with
  | [] => [(k, v)]
  | (k', v') :: rest => if k' = k then (k, v) :: rest else (k', v') :: setAssoc rest k v

/-- Lookup in an association list (Python `d.get(k)`). -/
def getAssoc {α β : Type} [DecidableEq α] (m : List (α × β)) (k : α) : Option β :=
  match m with
  | [] => none
  | (k', v) :: rest => if k' = k then some v else getAssoc rest k

/-! ## LineFollower (`follow_file`)

The follower owns a handle `f` onto one on-disk file identity (inode) with a
read position, plus the `current_inode` captured at (re)open time.  The
filesystem maps the followed path to at most one file identity; the content of
an identity survives loss of its directory entry while a handle is open, as on
a POSIX system. -/

/-- The directory entry at the followed path (`os.stat(path).st_ino`, `none`
when the path is missing) and the content of every file identity. -/
structure FS where
  pathFile : Option Nat
  contents : List (Nat × Bytes)
deriving DecidableEq

/-- Content of file identity `i` (empty for an identity never written). -/
def FS.readFile (fs : FS) (i : Nat) : Bytes :=
  (getAssoc fs.contents i).getD []

/-- External filesystem events interleaved with the follower's poll loop. -/
inductive FsAction
  | append (s : Bytes)
  | rotate (newId : Nat)
  | remove
deriving DecidableEq

/-- Effect of one filesystem event: `append` extends the file currently at the
path, `rotate` replaces the path with a fresh empty file identity (the old
identity's bytes stay readable through an open handle), `remove` unlinks the
path. -/
def FsAction.apply (fs : FS) : FsAction → FS
  | .append s =>
    match fs.pathFile with
    | none => fs
    | some i => { fs with contents := setAssoc fs.contents i (fs.readFile i ++ s) }
  | .rotate newId => { pathFile := some newId, contents := setAssoc fs.contents newId [] }
  | .remove => { fs with pathFile := none }

/-- Python `f.readline()` on the unread suffix: the characters up to and
including the first newline, or every remaining character when no newline
follows — `readline` returns unterminated trailing data at end-of-file rather
than waiting for a terminator. -/
def takeLine : Bytes → Bytes
  | [] => []
  | c :: cs => if c = '\n' then [c] else c :: takeLine cs

/-- `f.readline()` of a file with content `content` and read position `pos`;
`[]` means the empty string returned at end-of-file. -/
def readlineFrom (content : Bytes) (pos : Nat) : Bytes :=
  takeLine (content.drop pos)

/-- Python `line.rstrip("\n")` (auth_log_monitor.py line 67). -/
def rstripNewline (l : Bytes) : Bytes :=
  (l.reverse.dropWhile (fun c => c = '\n')).reverse

/-- Loop state of `follow_file`: the open handle with its file identity and
read position (`none` when `f is None`) and `current_inode`. -/
structure Follower where
  handle : Option (Nat × Nat)
  current_inode : Option Nat
deriving DecidableEq

/-- Generator start (auth_log_monitor.py lines 52-53): `current_inode`
captured from the path, no file open yet. -/
def initFollower (fs : FS) : Follower := ⟨none, fs.pathFile⟩

/-- What one loop iteration emitted. -/
inductive PollOut
  | yielded (line : Bytes)
  | silent
deriving DecidableEq

/-- One iteration of `follow_file`'s `while True` loop (auth_log_monitor.py
lines 55-77), atomic with respect to filesystem events:
if `f is None`, try to open, seek to end-of-file, and capture the inode
(retrying silently while the path is missing); otherwise `readline` — a
non-empty result is yielded (rstripped), an empty result triggers the rotation
check (`new_inode` and `current_inode` both non-None and different closes the
handle). -/
def pollStep (fs : FS) (st : Follower) : Follower × PollOut :=
  match st.handle with
  | none =>
    match fs.pathFile with
    | none => (st, .silent)
    | some i => (⟨some (i, (fs.readFile i).length), some i⟩, .silent)
  | some (i, pos) =>
    let line := readlineFrom (fs.readFile i) pos
    if line = [] then
      match fs.pathFile, st.current_inode with
      | some ni, some ci =>
        if ni ≠ ci then (⟨none, st.current_inode⟩, .silent) else (st, .silent)
      | _, _ => (st, .silent)
    else
      (⟨some (i, pos + line.length), st.current_inode⟩, .yielded (rstripNewline line))

/-- A step of the composed system: either the environment acts on the
filesystem or the follower performs one poll iteration. -/
inductive TStep
  | act (a : FsAction)
  | poll
deriving DecidableEq

/-- Run a trace of interleaved filesystem events and poll iterations,
returning the final filesystem, the final follower state, and the list of
yielded lines in order. -/
def runTrace (fs : FS) (st : Follower) : List TStep → FS × Follower × List Bytes
  | [] => (fs, st, [])
  | .act a :: rest => runTrace (a.apply fs) st rest
  | .poll :: rest =>
    let p := pollStep fs st
    let r := runTrace fs p.1 rest
    (r.1, r.2.1, (match p.2 with | .yielded l => [l] | .silent => []) ++ r.2.2)

/-- Initial filesystem for the follower scenarios: the followed path holds an
empty file with identity 0. -/
def fsEmpty0 : FS := ⟨some 0, [(0, [])]⟩

/-- Rotation scenario refuting the reset-to-start reading: the follower opens
file 0 at end, the file is rotated to identity 1, the line `x` is appended to
the new file before the follower's next polls, the follower then detects the
rotation, closes, and reopens — at the end of the new file. -/
def rotationLostTrace : List TStep :=
  [.poll, .act (.rotate 1), .act (.append ['x', '\n']), .poll, .poll]

/-- Filesystem after `rotationLostTrace`. -/
def fsAfterLost : FS := ⟨some 1, [(0, []), (1, ['x', '\n'])]⟩

/-- Follower after `rotationLostTrace`: handle on file 1 at position 2, past
the line `x` that was appended before the reopen. -/
def stAfterLost : Follower := ⟨some (1, 2), some 1⟩

/-- Three-rotation scenario for the amended rotation behaviour: a line before
any rotation, a line appended to the new file before the reopen (skipped), a
line after the first reopen, a second rotation, a period where the path is
missing (reopen retried), a third rotation re-creating the path, and a line
after the final reopen. -/
def threeRotationTrace : List TStep :=
  [.poll, .act (.append ['a', '\n']), .poll,
   .act (.rotate 1), .act (.append ['s', '\n']), .poll, .poll,
   .act (.append ['b', '\n']), .poll,
   .act (.rotate 2), .poll,
   .act .remove, .poll,
   .act (.rotate 3), .poll,
   .act (.append ['c', '\n']), .poll]

/-- Trace showing unterminated trailing data being yielded immediately:
append `abc` with no newline, poll, then complete the line with `d\n`. -/
def unterminatedTrace : List TStep :=
  [.poll, .act (.append ['a', 'b', 'c']), .poll, .act (.append ['d', '\n']), .poll]

/-! ## RemoteOffsetCollector (collector.py) -/

/-- Outcome of one `ssh` subprocess invocation (`run`, collector.py lines
56-57).  `timeout` models `subprocess.run` raising `TimeoutExpired` once the
command exceeds the `timeout=` bound — an exception, not a return value;
`unreachable` is a non-zero exit (connection refused, auth failure, remote
command failure not masked by the shell). -/
inductive ChannelOutcome
  | timeout
  | unreachable
  | ok
deriving DecidableEq

/-- The remote side as observed by the two calls a cycle makes for one source:
the file at stat time (`none` = absent, `some s` = present with byte size `s`)
and at fetch time (`none` = absent, `some content` = present). -/
structure RemoteEnv where
  statChannel : ChannelOutcome
  statFile : Option Nat
  fetchChannel : ChannelOutcome
  fetchFile : Option Bytes
deriving DecidableEq

/-- `remote_stat_size` (collector.py lines 102-114): `ssh ... stat -c %s`.
Non-zero exit — unreachable host, or missing file whose `stat` error is sent
to `/dev/null` — yields `None`; a timeout raises; otherwise the size prints.
`Except Unit` threads the uncaught Python exception. -/
def remote_stat_size (env : RemoteEnv) : Except Unit (Option Nat) :=
  match env.statChannel with
  | .timeout => .error ()
  | .unreachable => .ok none
  | .ok => .ok env.statFile

/-- `sftp_read_range` (collector.py lines 122-140):
`ssh ... tail -c +(offset+1) path 2>/dev/null || true`.  The `|| true` makes a
missing remote file exit 0 with empty output (empty success); a transport
failure exits non-zero (`False`, modelled `none`); a timeout raises; success
returns the bytes of the file from `offset` (0-based) to the end. -/
def sftp_read_range (env : RemoteEnv) (offset : Nat) : Except Unit (Option Bytes) :=
  match env.fetchChannel with
  | .timeout => .error ()
  | .unreachable => .ok none
  | .ok =>
    match env.fetchFile with
    | none => .ok (some [])
    | some content => .ok (some (content.drop offset))

/-- Status record appended for a source in a cycle (collector.py `main`). -/
inductive CycleStatus
  | unreachable_or_missing
  | no_change
  | fetch_failed
  | ok_appended (bytes_appended : Nat) (new_offset : Nat)
deriving DecidableEq

/-- Per-source outcome of one cycle: the stored offset (the source's entry in
collector_offsets.json), the local mirror file's content, and the status. -/
structure SourceCycleResult where
  offset : Nat
  mirror : Bytes
  status : CycleStatus
deriving DecidableEq

/-- Body of the `for src in sources` loop in `main` (collector.py lines
204-275) for one source: `stored` is `offsets.get(key, 0)`, `mirror` the local
out file.  A `stat` failure skips the source; a size below the stored offset
resets the local `old_offset` to 0; equality means no change; otherwise the
range is fetched and, on success, appended and the offset persisted to the
remote size.  An exception from either remote call propagates (`.error`),
aborting the loop and the process. -/
def collectSource (env : RemoteEnv) (stored : Nat) (mirror : Bytes) :
    Except Unit SourceCycleResult :=
  match remote_stat_size env with
  | .error e => .error e
  | .ok none => .ok ⟨stored, mirror, .unreachable_or_missing⟩
  | .ok (some size) =>
    let old_offset := if size < stored then 0 else stored
    if size = old_offset then .ok ⟨stored, mirror, .no_change⟩
    else
      match sftp_read_range env old_offset with
      | .error e => .error e
      | .ok none => .ok ⟨stored, mirror, .fetch_failed⟩
      | .ok (some data) => .ok ⟨size, mirror ++ data, .ok_appended data.length size⟩

/-- The whole per-cycle source loop: sources processed in order; an uncaught
exception from any source aborts the cycle (and the process), leaving the
remaining sources unprocessed. -/
def collectCycle : List (RemoteEnv × Nat × Bytes) → Except Unit (List SourceCycleResult)
  | [] => .ok []
  | (env, stored, mirror) :: rest =>
    match collectSource env stored mirror with
    | .error e => .error e
    | .ok r =>
      match collectCycle rest with
      | .error e => .error e
      | .ok rs => .ok (r :: rs)

/-- Startup load of collector_offsets.json (collector.py lines 189-195):
`none` = file absent, `some none` = file present but `json.load` raises,
`some (some m)` = file parses to the map `m`. -/
def loadOffsets : Option (Option (List (String × Nat))) → List (String × Nat)
  | none => []
  | some none => []
  | some (some m) => m

/-- `offsets.get(key, 0)` (collector.py line 209). -/
def offsetsGet (m : List (String × Nat)) (k : String) : Nat :=
  (getAssoc m k).getD 0

/-! ## AlertEngine (simple_alerts.py `main` loop) -/

/-- Event timestamps in abstract time units (the code uses `datetime`; only
ordering and differences matter to the windowing logic). -/
abbrev Time := Int

/-- Kind of a parsed event (the `event` field consulted by the engine). -/
inductive EventKind
  | ssh_failed
  | ssh_accepted
  | sudo
  | other
deriving DecidableEq

/-- A parsed event as consumed by the engine: timestamp, kind, optional IP.
Fields the windowing logic never consults (user, cmd, raw) are omitted. -/
structure Event where
  ts : Time
  kind : EventKind
  ip : Option String
deriving DecidableEq

/-- Engine configuration: `--fail-threshold`, `--window-min`, `--alert-sudo`. -/
structure AlertConfig where
  fail_threshold : Nat
  window : Time
  alert_sudo : Bool
deriving DecidableEq

/-- An emitted alert (the fields the claims are about). -/
inductive Alert
  | bruteforce (ip : String) (count : Nat)
  | success_after_failures (ip : String) (last_fail : Time)
  | sudo_used
deriving DecidableEq

/-- Engine state: `fails_by_ip` (deque of timestamps per IP, oldest first) and
`recent_fail_ips` (last failure timestamp per IP). -/
structure AlertState where
  fails_by_ip : List (String × List Time)
  recent_fail_ips : List (String × Time)
deriving DecidableEq

/-- Engine state at startup: both maps empty. -/
def initAlertState : AlertState := ⟨[], []⟩

/-- The pruned failure deque for `ip` after an `ssh_failed` event at `ts`
(simple_alerts.py lines 121-125): append `ts`, then pop from the front while
the front is strictly older than the cutoff `ts - window`
(`while dq and dq[0] < cutoff: dq.popleft()`). -/
def prunedFails (cfg : AlertConfig) (st : AlertState) (ip : String) (ts : Time) :
    List Time :=
  (((getAssoc st.fails_by_ip ip).getD []) ++ [ts]).dropWhile
    (fun t => decide (t < ts - cfg.window))

/-- Final cleanup run after every processed event (simple_alerts.py lines
168-172): drop `recent_fail_ips` entries strictly older than the cutoff. -/
def expireRecent (cutoff : Time) (m : List (String × Time)) : List (String × Time) :=
  m.filter (fun p => !decide (p.2 < cutoff))

/-- The `if/elif` chain of the engine (simple_alerts.py lines 120-166), before
the final cleanup: state update and alerts emitted for one event. -/
def processEventCore (cfg : AlertConfig) (st : AlertState) (e : Event) :
    AlertState × List Alert :=
  match e.kind, e.ip with
  | .ssh_failed, some ip =>
    let dq := prunedFails cfg st ip e.ts
    (⟨setAssoc st.fails_by_ip ip dq, setAssoc st.recent_fail_ips ip e.ts⟩,
     if dq.length = cfg.fail_threshold then [Alert.bruteforce ip dq.length] else [])
  | .ssh_accepted, some ip =>
    (st,
     match getAssoc st.recent_fail_ips ip with
     | some last_fail =>
       if e.ts - last_fail ≤ cfg.window then [Alert.success_after_failures ip last_fail]
       else []
     | none => [])
  | .sudo, _ => (st, if cfg.alert_sudo then [Alert.sudo_used] else [])
  | _, _ => (st, [])

/-- One full iteration of the engine's event loop for a parsed event: the
`if/elif` chain followed by the `recent_fail_ips` expiry sweep with cutoff
`ts - window`. -/
def processEvent (cfg : AlertConfig) (st : AlertState) (e : Event) :
    AlertState × List Alert :=
  let r := processEventCore cfg st e
  (⟨r.1.fails_by_ip, expireRecent (e.ts - cfg.window) r.1.recent_fail_ips⟩, r.2)

/-- Run the engine over a list of events, collecting all alerts in order. -/
def runEvents (cfg : AlertConfig) (st : AlertState) : List Event → AlertState × List Alert
  | [] => (st, [])
  | e :: rest =>
    let p := processEvent cfg st e
    let r := runEvents cfg p.1 rest
    (r.1, p.2 ++ r.2)

/-- Configuration of the spec's threshold edge-trigger test: threshold 3,
window 5 minutes. -/
def cfgEdge : AlertConfig := ⟨3, 5, false⟩

/-- The spec's edge-trigger event stream: `ssh_failed` for 10.0.0.5 at minutes
0, 2, 4 (three failures within 4 minutes), a 4th at minute 5, a 5th at
minute 6. -/
def edgeEvents : List Event :=
  [⟨0, .ssh_failed, some "10.0.0.5"⟩,
   ⟨2, .ssh_failed, some "10.0.0.5"⟩,
   ⟨4, .ssh_failed, some "10.0.0.5"⟩,
   ⟨5, .ssh_failed, some "10.0.0.5"⟩,
   ⟨6, .ssh_failed, some "10.0.0.5"⟩]

/-- Eviction scenario: IP A fails at minute 0, IP B fails at minute 100. -/
def staleEvents : List Event :=
  [⟨0, .ssh_failed, some "A"⟩, ⟨100, .ssh_failed, some "B"⟩]

/-- Correlation-boundary scenario state: IP 10.9.9.9 has a recorded last
failure at time 0. -/
def stBoundary : AlertState := ⟨[], [("10.9.9.9", 0)]⟩

/-- Correlation-boundary configuration: window 5. -/
def cfgBoundary : AlertConfig := ⟨3, 5, false⟩

/-! ## Theorems -/

/-- Running a concatenated trace equals running the pieces in sequence,
with the outputs concatenated. -/
theorem runTrace_append (t1 t2 : List TStep) : ∀ fs st,
    runTrace fs st (t1 ++ t2)
      = ((runTrace (runTrace fs st t1).1 (runTrace fs st t1).2.1 t2).1,
         (runTrace (runTrace fs st t1).1 (runTrace fs st t1).2.1 t2).2.1,
         (runTrace fs st t1).2.2
           ++ (runTrace (runTrace fs st t1).1 (runTrace fs st t1).2.1 t2).2.2) := by
  induction t1 with
  | nil => intro fs st; simp [runTrace]
  | cons s rest ih =>
    intro fs st
    cases s with
    | act a => simp [runTrace, ih]
    | poll => simp [runTrace, ih, List.append_assoc]

/-- A state on which one poll is a silent no-op stays put under any number of
further polls, producing no output. -/
theorem runTrace_poll_fix (fs : FS) (st : Follower)
    (h : pollStep fs st = (st, PollOut.silent)) :
    ∀ n, runTrace fs st (List.replicate n TStep.poll) = (fs, st, []) := by
  intro n
  induction n with
  | zero => rfl
  | succ n ih => simp [List.replicate, runTrace, h, ih]

/-- C1: the claim that after a rotation the follower resets its read position
to the start of the new file, so that every line appended to the new file
after the rotation is eventually yielded, is REFUTED: in the concrete trace
where the line `x` is appended to the new file between the rotation and the
follower's reopen, the follower reopens at the end of the new file and the
line is never yielded, no matter how many further polls run. -/
theorem follow_file_rotation_line_lost :
    ¬ ∃ n : Nat, ['x'] ∈ (runTrace fsEmpty0 (initFollower fsEmpty0)
      (rotationLostTrace ++ List.replicate n TStep.poll)).2.2 := by
  rintro ⟨n, hn⟩
  have h1 : runTrace fsEmpty0 (initFollower fsEmpty0) rotationLostTrace
      = (fsAfterLost, stAfterLost, []) := by decide
  have h2 : pollStep fsAfterLost stAfterLost = (stAfterLost, PollOut.silent) := by decide
  rw [runTrace_append, h1] at hn
  simp only [runTrace_poll_fix fsAfterLost stAfterLost h2 n] at hn
  simp at hn

/-- C1 (amended): on detecting an identity change the follower closes the old
handle and reopens the file, retrying while it is missing, but positions at
the END of the new file — so lines appended after the reopen are yielded,
lines appended between the rotation and the reopen are skipped, and no line
from the old file is re-emitted; demonstrated across three consecutive
rotations (the last preceded by a missing-path period that exercises the
reopen retry). -/
theorem follow_file_reopen_at_end :
    (∀ (fs : FS) (i : Nat) (ci : Option Nat), fs.pathFile = some i →
      pollStep fs ⟨none, ci⟩
        = (⟨some (i, (fs.readFile i).length), some i⟩, PollOut.silent)) ∧
    (∀ (fs : FS) (ci : Option Nat), fs.pathFile = none →
      pollStep fs ⟨none, ci⟩ = (⟨none, ci⟩, PollOut.silent)) ∧
    runTrace fsEmpty0 (initFollower fsEmpty0) threeRotationTrace
      = (⟨some 3, [(0, ['a', '\n']), (1, ['s', '\n', 'b', '\n']), (2, []), (3, ['c', '\n'])]⟩,
         ⟨some (3, 2), some 3⟩, [['a'], ['b'], ['c']]) := by
  refine ⟨?_, ?_, by decide⟩
  · intro fs i ci h; simp [pollStep, h]
  · intro fs ci h; simp [pollStep, h]

/-- Witness for `follow_file_reopen_at_end`: its reopen hypothesis holds at a
concrete filesystem and the reopen lands at the end of the file. -/
theorem follow_file_reopen_at_end_witness :
    (⟨some 7, [(7, ['q'])]⟩ : FS).pathFile = some 7 ∧
    pollStep ⟨some 7, [(7, ['q'])]⟩ ⟨none, none⟩
      = (⟨some (7, (FS.readFile ⟨some 7, [(7, ['q'])]⟩ 7).length), some 7⟩,
         PollOut.silent) :=
  ⟨rfl, follow_file_reopen_at_end.1 ⟨some 7, [(7, ['q'])]⟩ 7 none rfl⟩

/-- C7: the claim that unterminated trailing data is held back until completed
by a newline is REFUTED: with `abc` (no newline) at the end of the file, a
poll yields `abc` immediately; after `d` and a newline are appended the next
poll yields `d`, and the completed line `abcd` is never yielded whole. -/
theorem follow_file_unterminated_yielded_cex :
    (runTrace fsEmpty0 (initFollower fsEmpty0) unterminatedTrace).2.2
      = [['a', 'b', 'c'], ['d']] ∧
    ['a', 'b', 'c', 'd'] ∉ (runTrace fsEmpty0 (initFollower fsEmpty0) unterminatedTrace).2.2 := by
  decide

/-- C7 (amended): on each poll with unread bytes, the follower yields the data
from the current position up to and including the first newline, or up to
end-of-file when no newline follows — unterminated trailing data is yielded
immediately rather than held back. -/
theorem follow_file_yields_to_newline_or_eof (fs : FS) (i pos : Nat) (ci : Option Nat)
    (h : readlineFrom (fs.readFile i) pos ≠ []) :
    pollStep fs ⟨some (i, pos), ci⟩
      = (⟨some (i, pos + (readlineFrom (fs.readFile i) pos).length), ci⟩,
         PollOut.yielded (rstripNewline (readlineFrom (fs.readFile i) pos))) := by
  simp [pollStep, h]

/-- Witness for `follow_file_yields_to_newline_or_eof` at a file holding the
unterminated data `abc` with the handle at position 0. -/
theorem follow_file_yields_to_newline_or_eof_witness :
    readlineFrom (FS.readFile ⟨some 0, [(0, ['a', 'b', 'c'])]⟩ 0) 0 ≠ [] ∧
    pollStep ⟨some 0, [(0, ['a', 'b', 'c'])]⟩ ⟨some (0, 0), some 0⟩
      = (⟨some (0, 0 + (readlineFrom (FS.readFile ⟨some 0, [(0, ['a', 'b', 'c'])]⟩ 0) 0).length),
           some 0⟩,
         PollOut.yielded (rstripNewline (readlineFrom (FS.readFile ⟨some 0, [(0, ['a', 'b', 'c'])]⟩ 0) 0))) :=
  ⟨by decide, follow_file_yields_to_newline_or_eof ⟨some 0, [(0, ['a', 'b', 'c'])]⟩ 0 0 (some 0) (by decide)⟩

/-- C2: in any cycle with remote content `R` of size `S = R.length` at least
the stored offset `O`, a successful range fetch leaves the stored offset at
`S` with exactly the bytes in `[O, S)` appended verbatim to the mirror (its
length grows by `S - O`), while a failed fetch leaves offset and mirror
unchanged (the no-fetch case `S = O` records `no_change`). -/
theorem collector_offset_monotonic (R : Bytes) (O : Nat) (mirror : Bytes)
    (hSO : O ≤ R.length) :
    (∃ res, collectSource ⟨.ok, some R.length, .ok, some R⟩ O mirror = .ok res ∧
       res.offset = R.length ∧ res.mirror = mirror ++ R.drop O ∧
       res.mirror.length = mirror.length + (R.length - O)) ∧
    collectSource ⟨.ok, some R.length, .unreachable, some R⟩ O mirror
      = .ok ⟨O, mirror, if R.length = O then .no_change else .fetch_failed⟩ := by
  have hnl : ¬ R.length < O := Nat.not_lt.mpr hSO
  by_cases heq : R.length = O
  · subst heq
    constructor
    · exact ⟨⟨R.length, mirror, .no_change⟩,
        by simp [collectSource, remote_stat_size],
        rfl, by simp, by simp⟩
    · simp [collectSource, remote_stat_size]
  · constructor
    · refine ⟨⟨R.length, mirror ++ R.drop O, .ok_appended (R.drop O).length R.length⟩,
        ?_, rfl, rfl, by simp⟩
      simp [collectSource, remote_stat_size, sftp_read_range, hnl, heq]
    · simp [collectSource, remote_stat_size, sftp_read_range, hnl, heq]

/-- Witness for `collector_offset_monotonic` at `R = abc`, `O = 1`,
`mirror = z`: the hypothesis `1 ≤ 3` holds and the conclusion follows. -/
theorem collector_offset_monotonic_witness :
    (1 : Nat) ≤ (['a', 'b', 'c'] : Bytes).length ∧
    ((∃ res, collectSource ⟨.ok, some (['a', 'b', 'c'] : Bytes).length, .ok, some ['a', 'b', 'c']⟩ 1 ['z'] = .ok res ∧
       res.offset = (['a', 'b', 'c'] : Bytes).length ∧
       res.mirror = ['z'] ++ (['a', 'b', 'c'] : Bytes).drop 1 ∧
       res.mirror.length = (['z'] : Bytes).length + ((['a', 'b', 'c'] : Bytes).length - 1)) ∧
     collectSource ⟨.ok, some (['a', 'b', 'c'] : Bytes).length, .unreachable, some ['a', 'b', 'c']⟩ 1 ['z']
       = .ok ⟨1, ['z'], if (['a', 'b', 'c'] : Bytes).length = 1 then .no_change else .fetch_failed⟩) :=
  ⟨by decide, collector_offset_monotonic ['a', 'b', 'c'] 1 ['z'] (by decide)⟩

/-- C4: the claim that a remote call exceeding its timeout is treated as a
per-cycle failure and never terminates the polling loop is CONTRADICTED by
the code: `subprocess.run(..., timeout=...)` raises `TimeoutExpired`, which
nothing in `main` catches, so the cycle aborts and later sources go
unprocessed — while a plain unreachable host (non-zero exit) is indeed
handled per-source, and the same second source alone would have succeeded. -/
theorem collector_timeout_uncaught :
    collectSource ⟨.timeout, none, .ok, none⟩ 0 [] = .error () ∧
    collectCycle [(⟨.timeout, none, .ok, none⟩, 0, []),
                  (⟨.ok, some 3, .ok, some ['a', 'b', 'c']⟩, 0, [])] = .error () ∧
    collectCycle [(⟨.ok, some 3, .ok, some ['a', 'b', 'c']⟩, 0, [])]
      = .ok [⟨3, ['a', 'b', 'c'], .ok_appended 3 3⟩] ∧
    collectSource ⟨.unreachable, none, .ok, none⟩ 5 ['m']
      = .ok ⟨5, ['m'], .unreachable_or_missing⟩ :=
  ⟨rfl, rfl, rfl, rfl⟩

/-- C5: when the remote size `S = R.length` is strictly below the stored
offset `O` (truncation/rotation), the effective offset is reset to 0 before
fetching, so a successful cycle re-appends the entire new remote content:
the mirror grows by exactly `S` bytes, and when `S ≠ 0` the stored offset
becomes `S` with status `ok`. -/
theorem collector_truncation_reset (R : Bytes) (O : Nat) (mirror : Bytes)
    (hSO : R.length < O) :
    ∃ res, collectSource ⟨.ok, some R.length, .ok, some R⟩ O mirror = .ok res ∧
      res.mirror = mirror ++ R ∧
      res.mirror.length = mirror.length + R.length ∧
      (R.length ≠ 0 → res.offset = R.length ∧ res.status = .ok_appended R.length R.length) := by
  by_cases h0 : R.length = 0
  · have hR : R = [] := List.length_eq_zero.mp h0
    subst hR
    have hO : 0 < O := by simpa using hSO
    refine ⟨⟨O, mirror, .no_change⟩, ?_, by simp, by simp, by simp⟩
    simp [collectSource, remote_stat_size, hO]
  · refine ⟨⟨R.length, mirror ++ R, .ok_appended R.length R.length⟩, ?_, rfl, by simp, by simp⟩
    have hne : R.length ≠ 0 := h0
    simp [collectSource, remote_stat_size, sftp_read_range, hSO, hne]

/-- Witness for `collector_truncation_reset` at `R = ab`, `O = 5`,
`mirror = m`: the hypothesis `2 < 5` holds and the conclusion follows. -/
theorem collector_truncation_reset_witness :
    (['a', 'b'] : Bytes).length < 5 ∧
    (∃ res, collectSource ⟨.ok, some (['a', 'b'] : Bytes).length, .ok, some ['a', 'b']⟩ 5 ['m'] = .ok res ∧
      res.mirror = ['m'] ++ ['a', 'b'] ∧
      res.mirror.length = (['m'] : Bytes).length + (['a', 'b'] : Bytes).length ∧
      ((['a', 'b'] : Bytes).length ≠ 0 →
        res.offset = (['a', 'b'] : Bytes).length ∧
        res.status = .ok_appended (['a', 'b'] : Bytes).length (['a', 'b'] : Bytes).length)) :=
  ⟨by decide, collector_truncation_reset ['a', 'b'] 5 ['m'] (by decide)⟩

/-- C9: the claim's final part is REFUTED: with stat-time size 5, stored
offset 0, and the remote file absent at fetch time, the fetch yields an empty
success and nothing is appended, but the stored offset is set to the
stat-time size 5 — not reset to 0. -/
theorem fetch_absent_offset_not_reset_cex :
    collectSource ⟨.ok, some 5, .ok, none⟩ 0 [] = .ok ⟨5, [], .ok_appended 0 5⟩ ∧
    (5 : Nat) ≠ 0 :=
  ⟨rfl, by decide⟩

/-- C9 (amended): a non-zero exit or transport error of the remote range-read
command is a fetch failure; absence of the remote file at fetch time yields an
empty successful result, in which case nothing is appended to the mirror and
the stored offset is set to the stat-time size `S` (not reset to 0). -/
theorem fetch_error_and_absence_semantics (S stored : Nat) (mirror : Bytes)
    (hfetch : S ≠ (if S < stored then 0 else stored)) :
    (∀ (sc : ChannelOutcome) (sf : Option Nat) (ff : Option Bytes) (offset : Nat),
      sftp_read_range ⟨sc, sf, .unreachable, ff⟩ offset = .ok none) ∧
    (∀ (sc : ChannelOutcome) (sf : Option Nat) (offset : Nat),
      sftp_read_range ⟨sc, sf, .ok, none⟩ offset = .ok (some [])) ∧
    collectSource ⟨.ok, some S, .ok, none⟩ stored mirror
      = .ok ⟨S, mirror, .ok_appended 0 S⟩ := by
  refine ⟨fun sc sf ff offset => rfl, fun sc sf offset => rfl, ?_⟩
  simp [collectSource, remote_stat_size, sftp_read_range, hfetch]

/-- Witness for `fetch_error_and_absence_semantics` at `S = 5`, `stored = 0`:
a fetch does occur and the conclusion follows. -/
theorem fetch_error_and_absence_semantics_witness :
    (5 : Nat) ≠ (if 5 < 0 then 0 else 0) ∧
    ((∀ (sc : ChannelOutcome) (sf : Option Nat) (ff : Option Bytes) (offset : Nat),
      sftp_read_range ⟨sc, sf, .unreachable, ff⟩ offset = .ok none) ∧
     (∀ (sc : ChannelOutcome) (sf : Option Nat) (offset : Nat),
      sftp_read_range ⟨sc, sf, .ok, none⟩ offset = .ok (some [])) ∧
     collectSource ⟨.ok, some 5, .ok, none⟩ 0 []
       = .ok ⟨5, [], .ok_appended 0 5⟩) :=
  ⟨by decide, fetch_error_and_absence_semantics 5 0 [] (by decide)⟩

/-- C10: a missing offset file and an unparsable offset file both fall back
silently to the empty offset map, under which every source's offset reads as
0 (forcing a full re-fetch of each remote file). -/
theorem offsets_load_fallback :
    loadOffsets none = [] ∧ loadOffsets (some none) = [] ∧
    (∀ k, offsetsGet (loadOffsets none) k = 0) ∧
    (∀ k, offsetsGet (loadOffsets (some none)) k = 0) :=
  ⟨rfl, rfl, fun _ => rfl, fun _ => rfl⟩

/-- C3: the bruteforce alert fires on an `ssh_failed` event exactly when the
pruned failure deque's length equals the threshold (edge-triggered), and on
the spec's concrete stream — threshold 3, window 5 minutes, failures for
10.0.0.5 at minutes 0, 2, 4, 5, 6 — the first two events produce no alert,
the third produces the single alert with count 3, and the 4th and 5th
failures produce no additional alert (stale entries are not double-counted). -/
theorem bruteforce_edge_trigger :
    (∀ (cfg : AlertConfig) (st : AlertState) (ip : String) (ts : Time),
      (processEvent cfg st ⟨ts, .ssh_failed, some ip⟩).2
        = if (prunedFails cfg st ip ts).length = cfg.fail_threshold
          then [Alert.bruteforce ip (prunedFails cfg st ip ts).length] else []) ∧
    (runEvents cfgEdge initAlertState (edgeEvents.take 2)).2 = [] ∧
    (runEvents cfgEdge initAlertState (edgeEvents.take 3)).2 = [Alert.bruteforce "10.0.0.5" 3] ∧
    (runEvents cfgEdge initAlertState (edgeEvents.take 4)).2 = [Alert.bruteforce "10.0.0.5" 3] ∧
    (runEvents cfgEdge initAlertState edgeEvents).2 = [Alert.bruteforce "10.0.0.5" 3] := by
  exact ⟨fun cfg st ip ts => rfl, by decide, by decide, by decide, by decide⟩

/-- C6: the claim that after each event every per-key failure record still
held has an entry no older than the cutoff is REFUTED: after IP A fails at
minute 0 and IP B fails at minute 100 (window 5), A's failure record is still
held and its only (hence newest) entry 0 is strictly older than the cutoff
95. -/
theorem stale_fail_record_retained :
    getAssoc (runEvents cfgEdge initAlertState staleEvents).1.fails_by_ip "A" = some [0] ∧
    (0 : Time) < 100 - 5 :=
  ⟨by decide, by decide⟩

/-- C6 (amended): the per-event eviction sweep applies only to the last-failure
map `recent_fail_ips`: after processing any event, every entry left there is
no older than the event's window cutoff (per-IP deques in `fails_by_ip` are
pruned only lazily on that IP's next failure and may retain stale entries). -/
theorem recent_fail_ips_expired (cfg : AlertConfig) (st : AlertState) (e : Event)
    (p : String × Time) (hp : p ∈ (processEvent cfg st e).1.recent_fail_ips) :
    ¬ p.2 < e.ts - cfg.window := by
  have h : (processEvent cfg st e).1.recent_fail_ips
      = List.filter (fun q => !decide (q.2 < e.ts - cfg.window))
          (processEventCore cfg st e).1.recent_fail_ips := rfl
  rw [h] at hp
  simpa using (List.mem_filter.mp hp).2

/-- Witness for `recent_fail_ips_expired`: after an `ssh_failed` for A at
time 5 (window 5), the entry `(A, 5)` is in `recent_fail_ips` and is not
older than the cutoff 0. -/
theorem recent_fail_ips_expired_witness :
    ("A", (5 : Time)) ∈ (processEvent cfgEdge initAlertState ⟨5, .ssh_failed, some "A"⟩).1.recent_fail_ips ∧
    ¬ ("A", (5 : Time)).2 < (5 : Time) - cfgEdge.window :=
  ⟨by decide,
   recent_fail_ips_expired cfgEdge initAlertState ⟨5, .ssh_failed, some "A"⟩ ("A", 5) (by decide)⟩

/-- C8: an `ssh_accepted` event for an IP with a recorded last failure emits
`ssh_success_after_failures` carrying that prior failure timestamp exactly
when `ts - last_failure ≤ window` (inclusive boundary); concretely, with last
failure at 0 and window 5, acceptance at time 5 alerts and acceptance at
time 6 does not. -/
theorem success_after_failures_window (cfg : AlertConfig) (st : AlertState)
    (ip : String) (ts last : Time)
    (h : getAssoc st.recent_fail_ips ip = some last) :
    (processEvent cfg st ⟨ts, .ssh_accepted, some ip⟩).2
      = (if ts - last ≤ cfg.window then [Alert.success_after_failures ip last] else []) ∧
    (processEvent cfgBoundary stBoundary ⟨5, .ssh_accepted, some "10.9.9.9"⟩).2
      = [Alert.success_after_failures "10.9.9.9" 0] ∧
    (processEvent cfgBoundary stBoundary ⟨6, .ssh_accepted, some "10.9.9.9"⟩).2 = [] := by
  refine ⟨?_, by decide, by decide⟩
  simp [processEvent, processEventCore, h]

/-- Witness for `success_after_failures_window` at the boundary state: the IP
10.9.9.9 has recorded last failure 0 and the conclusion follows. -/
theorem success_after_failures_window_witness :
    getAssoc stBoundary.recent_fail_ips "10.9.9.9" = some 0 ∧
    ((processEvent cfgBoundary stBoundary ⟨5, .ssh_accepted, some "10.9.9.9"⟩).2
       = (if (5 : Time) - 0 ≤ cfgBoundary.window
          then [Alert.success_after_failures "10.9.9.9" 0] else []) ∧
     (processEvent cfgBoundary stBoundary ⟨5, .ssh_accepted, some "10.9.9.9"⟩).2
       = [Alert.success_after_failures "10.9.9.9" 0] ∧
     (processEvent cfgBoundary stBoundary ⟨6, .ssh_accepted, some "10.9.9.9"⟩).2 = []) :=
  ⟨by decide, success_after_failures_window cfgBoundary stBoundary "10.9.9.9" 5 0 (by decide)⟩

end MiniRack
